import Mathlib

/-!
Verification development for the BRIDGE repository's simulation core
(`src/components/GameCanvas.tsx`).  The per-tick update of the
two-character puzzle platformer is embedded shallowly: coordinates and
velocities are real numbers (the source uses JS floats with `Math.sqrt`,
`Math.sin`, `Math.cos`, `Math.atan2`), integer-valued counters (hp,
timers, shot counters, projectile lifetimes) are integers, and each
mutating source function becomes a pure state-transforming function.
Audio calls and rendering are out of scope and dropped.  Branches on
real-number comparisons use classical decidability, so the development
lives in a `noncomputable section`.
-/

noncomputable section

namespace Bridge

open Classical

/-- 2-D vector, mirroring `Vector2 {x, y}` from `types.ts`. -/
structure Vec2 where
  x : ℝ
  y : ℝ
deriving DecidableEq

/-- Platform kind, mirroring `'ground' | 'hazard' | 'goal' | 'gate'`. -/
inductive PlatType where
  | ground
  | hazard
  | goal
  | gate
deriving DecidableEq

/-- Motion descriptor of a moving platform (`Platform.moving`). -/
structure MovingSpec where
  rangeX : ℝ
  rangeY : ℝ
  speed : ℝ
  initialX : ℝ
  initialY : ℝ
  offset : ℝ
deriving DecidableEq

/-- Platform record from `types.ts`; `gateId`/`isOpen` are the gate
variant's fields (`isOpen` defaults to `false` when absent). -/
structure Platform where
  x : ℝ
  y : ℝ
  width : ℝ
  height : ℝ
  type : PlatType
  moving : Option MovingSpec
  gateId : Option ℤ
  isOpen : Bool
deriving DecidableEq

/-- Rectangular no-draw region (`Zone`). -/
structure Zone where
  x : ℝ
  y : ℝ
  width : ℝ
  height : ℝ
deriving DecidableEq

/-- Player-drawn bridge segment (`BridgeSegment`). -/
structure BridgeSegment where
  p1 : Vec2
  p2 : Vec2
  life : ℝ
deriving DecidableEq

/-- Pressure button (`Button`); target ids are optional references. -/
structure Button where
  id : ℤ
  triggerGateId : Option ℤ
  triggerSpawnerId : Option ℤ
  x : ℝ
  y : ℝ
  width : ℝ
  height : ℝ
  isPressed : Bool
deriving DecidableEq

/-- Crate kind (`'wood' | 'bomb'`). -/
inductive CrateType where
  | wood
  | bomb
deriving DecidableEq

/-- Pushable crate / rolling bomb (`Crate`). -/
structure Crate where
  id : ℤ
  type : CrateType
  pos : Vec2
  vel : Vec2
  width : ℝ
  height : ℝ
  isGrounded : Bool
deriving DecidableEq

/-- Boss behavioral state (`'idle' | 'attack' | 'cooldown' | 'move'`). -/
inductive BossState where
  | idle
  | attack
  | cooldown
  | move
deriving DecidableEq

/-- Boss record (`Boss`); `phase` is the literal `1 | 2` of the source. -/
structure Boss where
  x : ℝ
  y : ℝ
  width : ℝ
  height : ℝ
  hp : ℤ
  maxHp : ℤ
  phase : ℤ
  attackTimer : ℤ
  shotCount : ℤ
  invulnerableTimer : ℤ
  state : BossState
deriving DecidableEq

/-- Boss projectile (`Projectile`). -/
structure Projectile where
  x : ℝ
  y : ℝ
  vx : ℝ
  vy : ℝ
  radius : ℝ
  life : ℤ
deriving DecidableEq

/-- Dynamic character body: `Entity` extended with the hp fields the
guide and companion carry in `physicsRef` (`hp`, `maxHp`,
`invulnerableTimer`).  The cosmetic `color` string is dropped. -/
structure Entity where
  pos : Vec2
  vel : Vec2
  width : ℝ
  height : ℝ
  isGrounded : Bool
  hp : ℤ
  maxHp : ℤ
  invulnerableTimer : ℤ
deriving DecidableEq

/-- Outcome signal a tick can emit to the host (`onGameOver` /
`onLevelComplete`), or no signal. -/
inductive Signal where
  | none
  | gameOver
  | levelComplete
deriving DecidableEq

/-- `checkRectCollide`: strict AABB overlap between an entity-shaped
rectangle and a platform-shaped rectangle. -/
def rectOverlap (pos : Vec2) (w h : ℝ) (rx ry rw rh : ℝ) : Prop :=
  pos.x < rx + rw ∧ pos.x + w > rx ∧ pos.y < ry + rh ∧ pos.y + h > ry

/-- Euclidean length `Math.sqrt(dx*dx + dy*dy)` (also `Math.hypot`). -/
def euclid (dx dy : ℝ) : ℝ :=
  Real.sqrt (dx * dx + dy * dy)

/-- `Math.atan2(y, x)`, embedded as the argument of the complex number
`x + iy`. -/
def atan2 (y x : ℝ) : ℝ :=
  Complex.arg ⟨x, y⟩

/-! ### Buttons and gates (`updateButtons`) -/

/-- `checkPress` inside `updateButtons`: the body's horizontal span
overlaps the button and its feet lie inside the button's shallow
vertical band. -/
def checkPress (btn : Button) (pos : Vec2) (w h : ℝ) : Prop :=
  pos.x < btn.x + btn.width ∧ pos.x + w > btn.x ∧
    pos.y + h ≥ btn.y ∧ pos.y + h ≤ btn.y + btn.height

/-- A button is pressed this tick iff the guide, the companion, or some
crate passes `checkPress` (the OR accumulated by `updateButtons`). -/
def buttonPressed (guide companion : Entity) (crates : List Crate) (btn : Button) : Prop :=
  checkPress btn guide.pos guide.width guide.height ∨
    checkPress btn companion.pos companion.width companion.height ∨
      ∃ c ∈ crates, checkPress btn c.pos c.width c.height

/-- Boolean form of `buttonPressed`, the value stored in `btn.isPressed`. -/
def pressedB (guide companion : Entity) (crates : List Crate) (btn : Button) : Bool :=
  if buttonPressed guide companion crates btn then true else false

/-- `p.platforms.find(plat => plat.gateId === btn.triggerGateId)` followed
by `gate.isOpen = pressed`: set the open flag of the FIRST platform whose
`gateId` matches; later matches are untouched. -/
def setGateOpen (gid : ℤ) (v : Bool) : List Platform → List Platform
  | [] => []
  | p :: rest =>
    if p.gateId = some gid then { p with isOpen := v } :: rest
    else p :: setGateOpen gid v rest

/-- One `forEach` body of `updateButtons` followed by the rest of the
button list: recompute the head button's pressed flag, drive its target
gate (JS truthiness: a `triggerGateId` of `0` is falsy and drives no
gate), then process the remaining buttons on the updated platform list. -/
def updateButtons (guide companion : Entity) (crates : List Crate) :
    List Button → List Platform → List Button × List Platform
  | [], plats => ([], plats)
  | btn :: rest, plats =>
    let pr := pressedB guide companion crates btn
    let plats2 :=
      match btn.triggerGateId with
      | some gid => if gid ≠ 0 then setGateOpen gid pr plats else plats
      | none => plats
    let tail := updateButtons guide companion crates rest plats2
    ({ btn with isPressed := pr } :: tail.1, tail.2)

/-- The last button in list order whose `triggerGateId` is `some gid`
(the button whose write to the gate's flag survives the tick). -/
def lastTargeting (gid : ℤ) : List Button → Option Button
  | [] => none
  | b :: rest =>
    match lastTargeting gid rest with
    | some b' => some b'
    | none => if b.triggerGateId = some gid then some b else none

/-- First platform carrying the given gate identifier (the one
`updateButtons` drives). -/
def firstGate (gid : ℤ) (plats : List Platform) : Option Platform :=
  plats.find? fun p => decide (p.gateId = some gid)

/-! ### Integrator and collision resolver -/

/-- `updateEntityPhysics`: gravity (0.5), velocity integration, grounded
flag reset. -/
def updateEntityPhysics (e : Entity) : Entity :=
  let v := Vec2.mk e.vel.x (e.vel.y + 0.5)
  { e with
      vel := v
      pos := Vec2.mk (e.pos.x + v.x) (e.pos.y + v.y)
      isGrounded := false }

/-- `resolveCollision`: minimum-translation-vector resolution of an
entity against one platform, including the moving-platform carry for
landings (`time` is the simulation clock `p.time`). -/
def resolveCollision (time : ℝ) (e : Entity) (plat : Platform) : Entity :=
  if plat.type = PlatType.gate ∧ plat.isOpen then e
  else
    let overlapX := (e.width + plat.width) / 2 -
      |e.pos.x + e.width / 2 - (plat.x + plat.width / 2)|
    let overlapY := (e.height + plat.height) / 2 -
      |e.pos.y + e.height / 2 - (plat.y + plat.height / 2)|
    if overlapY < overlapX then
      if e.vel.y > 0 ∧ e.pos.y < plat.y then
        let e1 := { e with
          pos := Vec2.mk e.pos.x (plat.y - e.height)
          vel := Vec2.mk e.vel.x 0
          isGrounded := true }
        match plat.moving with
        | none => e1
        | some m =>
          let currentPhase := time * m.speed + m.offset
          let nextPhase := (time + 0.05) * m.speed + m.offset
          let currX := m.initialX + Real.sin currentPhase * m.rangeX
          let nextX := m.initialX + Real.sin nextPhase * m.rangeX
          let e2 := { e1 with pos := Vec2.mk (e1.pos.x + (nextX - currX)) e1.pos.y }
          if m.rangeY > 0 then
            let currY := m.initialY + Real.cos currentPhase * m.rangeY
            let nextY := m.initialY + Real.cos nextPhase * m.rangeY
            { e2 with pos := Vec2.mk e2.pos.x (e2.pos.y + (nextY - currY)) }
          else e2
      else if e.vel.y < 0 ∧ e.pos.y > plat.y then
        { e with
            pos := Vec2.mk e.pos.x (plat.y + plat.height)
            vel := Vec2.mk e.vel.x 0 }
      else e
    else
      let snapped :=
        if e.pos.x + e.width / 2 > plat.x + plat.width / 2 then plat.x + plat.width
        else plat.x - e.width
      { e with pos := Vec2.mk snapped e.pos.y, vel := Vec2.mk 0 e.vel.y }

/-- Overlap test of an entity against a platform's rectangle
(`checkRectCollide(entity, plat)`). -/
def platOverlap (e : Entity) (plat : Platform) : Prop :=
  rectOverlap e.pos e.width e.height plat.x plat.y plat.width plat.height

/-- The platform `for`-loop of `updateEntityCollisions`: a hazard
touched by a player signals game over and `return`s (short-circuiting
every remaining check of this call); ground/goal/gate platforms are
resolved; hazards touched by crates are skipped. -/
def updatePlatformCollisions (time : ℝ) (isPlayer : Bool) :
    List Platform → Entity → Entity × Signal
  | [], e => (e, Signal.none)
  | plat :: rest, e =>
    if platOverlap e plat then
      if plat.type = PlatType.hazard ∧ isPlayer = true then (e, Signal.gameOver)
      else
        let e2 :=
          if plat.type = PlatType.ground ∨ plat.type = PlatType.goal ∨
              plat.type = PlatType.gate then
            resolveCollision time e plat
          else e
        updatePlatformCollisions time isPlayer rest e2
    else updatePlatformCollisions time isPlayer rest e

/-- `checkBridgeCollide`: one-sided line support.  Returns the
interpolated line height and slope angle when the body rests on the
segment, `none` otherwise. -/
def checkBridgeCollide (e : Entity) (b : BridgeSegment) : Option (ℝ × ℝ) :=
  if e.vel.y < 0 then none
  else
    let feetX := e.pos.x + e.width / 2
    let feetY := e.pos.y + e.height
    let minX := min b.p1.x b.p2.x
    let maxX := max b.p1.x b.p2.x
    if feetX ≥ minX - 5 ∧ feetX ≤ maxX + 5 then
      let dx := b.p2.x - b.p1.x
      let dy := b.p2.y - b.p1.y
      if |dx| < 0.01 then none
      else
        let lineY := b.p1.y + dy / dx * (feetX - b.p1.x)
        if feetY ≥ lineY - 8 ∧ feetY ≤ lineY + 15 then some (lineY, atan2 dy dx)
        else none
    else none

/-- The bridge `for`-loop body of `updateEntityCollisions`: rest on the
segment, then apply rolling slope physics for bombs or plain friction
for everything else. -/
def applyBridge (isBomb : Bool) (e : Entity) (b : BridgeSegment) : Entity :=
  match checkBridgeCollide e b with
  | none => e
  | some (lineY, angle) =>
    let e1 := { e with
      pos := Vec2.mk e.pos.x (lineY - e.height)
      vel := Vec2.mk e.vel.x 0
      isGrounded := true }
    if isBomb = true then
      { e1 with vel := Vec2.mk ((e1.vel.x + Real.sin angle * 0.5 * 2) * 0.98) e1.vel.y }
    else
      { e1 with vel := Vec2.mk (e1.vel.x * 0.9) e1.vel.y }

/-- The invulnerability countdown at the top of
`updateEntityCollisions` (players only). -/
def stepInvuln (isPlayer : Bool) (e : Entity) : Entity :=
  if isPlayer = true ∧ e.invulnerableTimer > 0 then
    { e with invulnerableTimer := e.invulnerableTimer - 1 }
  else e

/-- `updateEntityCollisions`: invulnerability countdown, platform loop
(with hazard short-circuit), bridge loop, screen-floor kill. -/
def updateEntityCollisions (time : ℝ) (isPlayer isBomb : Bool)
    (plats : List Platform) (bridges : List BridgeSegment) (e : Entity) :
    Entity × Signal :=
  let e0 := stepInvuln isPlayer e
  let res := updatePlatformCollisions time isPlayer plats e0
  if res.2 = Signal.gameOver then res
  else
    let e2 := bridges.foldl (applyBridge isBomb) res.1
    if e2.pos.y > 2000 ∧ isPlayer = true then (e2, Signal.gameOver)
    else (e2, Signal.none)

/-! ### Damage and projectiles -/

/-- `takeDamage`: ignored inside an invulnerability window; with the HP
system active (`currentLevel.boss || currentLevel.playerMaxHp`, the
`hpMode` flag) decrement hp, arm a 60-tick window, and signal game over
at zero hp; otherwise any hit is an instant game over. -/
def takeDamage (hpMode : Bool) (e : Entity) : Entity × Signal :=
  if e.invulnerableTimer > 0 then (e, Signal.none)
  else if hpMode = true then
    let e1 := { e with hp := e.hp - 1, invulnerableTimer := 60 }
    if e1.hp ≤ 0 then (e1, Signal.gameOver) else (e1, Signal.none)
  else (e, Signal.gameOver)

/-- Per-tick projectile motion and lifetime decrement. -/
def moveProj (pr : Projectile) : Projectile :=
  { pr with x := pr.x + pr.vx, y := pr.y + pr.vy, life := pr.life - 1 }

/-- `checkHit`: circle-versus-entity-center proximity test. -/
def checkHit (e : Entity) (pr : Projectile) : Prop :=
  euclid (e.pos.x + e.width / 2 - pr.x) (e.pos.y + e.height / 2 - pr.y) <
    pr.radius + e.width / 2

/-- `updateProjectiles`: backward iteration over the projectile list
(the splice loop runs from the last index down), moving each
projectile, expiring it at zero life, and resolving guide hits through
`takeDamage` with destruction of the projectile.  Returns the updated
guide, the surviving projectiles, and whether a game-over signal was
emitted.  The companion is immune by design. -/
def updateProjectiles (hpMode : Bool) : Entity → List Projectile →
    Entity × List Projectile × Bool
  | g, [] => (g, [], false)
  | g, pr :: rest =>
    let tail := updateProjectiles hpMode g rest
    let g1 := tail.1
    let pr' := moveProj pr
    if pr'.life ≤ 0 then tail
    else if checkHit g1 pr' then
      let dmg := takeDamage hpMode g1
      (dmg.1, tail.2.1, if dmg.2 = Signal.gameOver then true else tail.2.2)
    else (g1, pr' :: tail.2.1, tail.2.2)

/-- The projectiles that survive `updateProjectiles` against a guide
whose state never changes: moved, still alive, and not hitting. -/
def surviving (g : Entity) : List Projectile → List Projectile
  | [] => []
  | pr :: rest =>
    if 0 < (moveProj pr).life ∧ ¬ checkHit g (moveProj pr) then
      moveProj pr :: surviving g rest
    else surviving g rest

/-! ### Tether constraint (`tick`, tether toggle and tether force) -/

/-- Guide–companion distance, `Math.sqrt(dx*dx + dy*dy)` on the
position difference. -/
def tetherDist (guide companion : Entity) : ℝ :=
  euclid (guide.pos.x - companion.pos.x) (guide.pos.y - companion.pos.y)

/-- The elastic correction applied when the tether is stretched past its
rest length: companion pulled toward the guide (weight 0.8), guide
pulled back (factor 0.2), with strength 0.05 per unit of excess. -/
def applyTetherForce (guide companion : Entity) : Entity × Entity :=
  let dx := guide.pos.x - companion.pos.x
  let dy := guide.pos.y - companion.pos.y
  let d := euclid dx dy
  let angle := atan2 dy dx
  let force := (d - 70) * 0.05
  let gv := Vec2.mk (guide.vel.x - Real.cos angle * force * 0.2)
    (guide.vel.y - Real.sin angle * force * 0.2)
  let cv := Vec2.mk (companion.vel.x + Real.cos angle * force * 0.8)
    (companion.vel.y + Real.sin angle * force * 0.8)
  ({ guide with vel := gv }, { companion with vel := cv })

/-- Step 3 of `tick`: the distance-gated tether force (only when linked
and stretched past 70), followed by the companion's unconditional
horizontal drag (0.9). -/
def tetherStep (isTethered : Bool) (guide companion : Entity) : Entity × Entity :=
  let pair :=
    if isTethered = true ∧ tetherDist guide companion > 70 then
      applyTetherForce guide companion
    else (guide, companion)
  (pair.1, { pair.2 with vel := Vec2.mk (pair.2.vel.x * 0.9) pair.2.vel.y })

/-- The `KeyE` tether-toggle block at the top of `tick`: on a fresh
press (cooldown flag clear) a linked tether always disconnects, an
unlinked tether reconnects only when the current distance is below 100,
and otherwise the request is ignored; the cooldown flag suppresses
repeats while the key stays held.  Returns the new `(isTethered,
toggleCooldown)` pair. -/
def toggleStep (keyE toggleCooldown isTethered : Bool) (guide companion : Entity) :
    Bool × Bool :=
  if keyE = true then
    if toggleCooldown = false then
      if isTethered = true then (false, true)
      else if tetherDist guide companion < 100 then (true, true)
      else (isTethered, true)
    else (isTethered, toggleCooldown)
  else (isTethered, false)

/-! ### Drawing economy (`tick`, step 5) -/

/-- Membership of the pointer's world position in a no-ink zone
(inclusive bounds, as in the source). -/
def inZone (wx wy : ℝ) (z : Zone) : Prop :=
  wx ≥ z.x ∧ wx ≤ z.x + z.width ∧ wy ≥ z.y ∧ wy ≤ z.y + z.height

/-- The per-attempt state the drawing block reads and writes. -/
structure DrawState where
  inkLeft : ℝ
  bridges : List BridgeSegment
  lastMousePos : Option Vec2
  bridgeCount : ℤ
deriving DecidableEq

/-- Pointer input for one tick of the drawing block. -/
structure DrawInput where
  mouseDown : Bool
  mx : ℝ
  my : ℝ
  cameraX : ℝ
deriving DecidableEq

/-- Step 5 of `tick` (the drawing block): while the draw input is held
and ink remains, commit a segment from the last recorded point to the
pointer's world position whenever the stroke distance exceeds 10 and
the ink budget covers the cost of half the distance; entering a no-ink
zone resets the stroke, and releasing the pointer (or exhausting ink)
clears the last recorded point. -/
def drawStep (zones : List Zone) (inp : DrawInput) (s : DrawState) : DrawState :=
  if inp.mouseDown = true ∧ s.inkLeft > 0 then
    let wx := inp.mx + inp.cameraX
    let wy := inp.my
    if ∀ z ∈ zones, ¬ inZone wx wy z then
      match s.lastMousePos with
      | some lp =>
        let d := euclid (wx - lp.x) (wy - lp.y)
        if d > 10 then
          let cost := d * 0.5
          if s.inkLeft ≥ cost then
            { inkLeft := s.inkLeft - cost
              bridges := s.bridges ++ [⟨lp, ⟨wx, wy⟩, 1⟩]
              lastMousePos := some ⟨wx, wy⟩
              bridgeCount := s.bridgeCount + 1 }
          else s
        else s
      | none => { s with lastMousePos := some ⟨wx, wy⟩ }
    else { s with lastMousePos := none }
  else { s with lastMousePos := none }

/-- Iterated drawing block over a stream of per-tick pointer inputs
(the only writer of `inkLeft` during an attempt). -/
def drawTrace (zones : List Zone) (inputs : ℕ → DrawInput) (s0 : DrawState) :
    ℕ → DrawState
  | 0 => s0
  | n + 1 => drawStep zones (inputs n) (drawTrace zones inputs s0 n)

/-! ### Boss encounter (`updateBoss`) -/

/-- The phase-transition check of `updateBoss`: the first frame hp has
fallen to 3 or below while still in phase 1 flips to phase 2, forces
the cooldown state, and re-arms the attack timer to 180. -/
def bossPhaseCheck (b : Boss) : Boss :=
  if b.phase = 1 ∧ b.hp ≤ 3 then
    { b with phase := 2, state := BossState.cooldown, attackTimer := 180 }
  else b

/-- A projectile fired from `(cx, cy)` aimed at `(tx, ty)` with the
given speed and radius (the phase-1 aimed shot, `life` 300). -/
def aimedProjectile (cx cy tx ty speed radius : ℝ) : Projectile :=
  let angle := atan2 (ty - cy) (tx - cx)
  { x := cx, y := cy
    vx := Real.cos angle * speed
    vy := Real.sin angle * speed
    radius := radius, life := 300 }

/-- One projectile of the phase-2 radial burst (8 shots, angular spacing
2π/8 phase-shifted by the simulation clock). -/
def radialProjectile (cx cy time : ℝ) (i : ℕ) : Projectile :=
  let angle := Real.pi * 2 / 8 * (i : ℝ) + time
  { x := cx, y := cy
    vx := Real.cos angle * 4
    vy := Real.sin angle * 4
    radius := 8, life := 300 }

/-- One projectile of the phase-2 rain volley; `r1`, `r2` are the two
`Math.random()` draws used for its position. -/
def rainProjectile (guideX r1 r2 : ℝ) : Projectile :=
  { x := guideX + (r1 * 400 - 200)
    y := -50 - r2 * 200
    vx := 0, vy := 5
    radius := 10, life := 300 }

/-- Per-tick environment of `updateBoss`: the guide (aim target), the
simulation clock, and the stream of `Math.random()` results consumed by
this call. -/
structure BossEnv where
  guide : Entity
  time : ℝ
  rand : ℕ → ℝ

/-- The cooldown/attack state machine of `updateBoss` (states `idle` and
`move` fall through unchanged).  Returns the boss and the projectiles
emitted this tick. -/
def bossStateMachine (env : BossEnv) (b : Boss) : Boss × List Projectile :=
  match b.state with
  | BossState.cooldown =>
    let b1 := { b with attackTimer := b.attackTimer - 1 }
    if b1.attackTimer ≤ 0 then
      ({ b1 with state := BossState.attack, shotCount := 0, attackTimer := 0 }, [])
    else (b1, [])
  | BossState.attack =>
    let b1 := { b with attackTimer := b.attackTimer - 1 }
    if b1.attackTimer ≤ 0 then
      let cx := b1.x + b1.width / 2
      let cy := b1.y + b1.height / 2
      if b1.phase = 1 then
        let proj := aimedProjectile cx cy (env.guide.pos.x + env.guide.width / 2)
          (env.guide.pos.y + env.guide.height / 2) 5 8
        let b2 := { b1 with shotCount := b1.shotCount + 1 }
        if b2.shotCount ≥ (5 : ℤ) then
          ({ b2 with state := BossState.cooldown, attackTimer := 180 }, [proj])
        else ({ b2 with attackTimer := 60 }, [proj])
      else
        let projs :=
          if env.rand 0 > 0.5 then
            (List.range 8).map (radialProjectile cx cy env.time)
          else
            (List.range 5).map fun i =>
              rainProjectile env.guide.pos.x (env.rand (2 * i + 1)) (env.rand (2 * i + 2))
        ({ b1 with state := BossState.cooldown, attackTimer := 180 }, projs)
    else (b1, [])
  | BossState.idle => (b, [])
  | BossState.move => (b, [])

/-- The bomb-versus-boss loop at the end of `updateBoss`, iterated from
the last crate down: a bomb within the combined radius is destroyed
and, if the boss is not invulnerable, costs one hp and arms a 60-tick
invulnerability window. -/
def bombCollisions (b : Boss) : List Crate → Boss × List Crate
  | [] => (b, [])
  | c :: rest =>
    let tail := bombCollisions b rest
    let b1 := tail.1
    if c.type = CrateType.bomb ∧
        euclid (c.pos.x + c.width / 2 - (b1.x + b1.width / 2))
          (c.pos.y + c.height / 2 - (b1.y + b1.height / 2)) <
          b1.width / 2 + c.width / 2 then
      let b2 :=
        if b1.invulnerableTimer ≤ 0 then
          { b1 with hp := b1.hp - 1, invulnerableTimer := 60 }
        else b1
      (b2, tail.2)
    else (b1, c :: tail.2)

/-- The slice of the simulation context `updateBoss` reads and writes. -/
structure BossWorld where
  boss : Option Boss
  projectiles : List Projectile
  crates : List Crate

/-- The boss invulnerability countdown at the top of `updateBoss`. -/
def bossInvulnStep (b : Boss) : Boss :=
  if b.invulnerableTimer > 0 then
    { b with invulnerableTimer := b.invulnerableTimer - 1 }
  else b

/-- The floating sinusoidal oscillation
(`boss.y += Math.sin(p.time * 0.1) * 0.5`). -/
def bossOsc (time : ℝ) (b : Boss) : Boss :=
  { b with y := b.y + Real.sin (time * 0.1) * 0.5 }

/-- `updateBoss` while the game is in the playing state: invulnerability
countdown, death check (clearing the boss and completing the level),
phase check, floating oscillation, state machine, bomb collisions. -/
def updateBoss (env : BossEnv) (w : BossWorld) : BossWorld × Signal :=
  match w.boss with
  | none => (w, Signal.none)
  | some b0 =>
    let b1 := bossInvulnStep b0
    if b1.hp ≤ 0 then ({ w with boss := none }, Signal.levelComplete)
    else
      let b3 := bossOsc env.time (bossPhaseCheck b1)
      let sm := bossStateMachine env b3
      let bc := bombCollisions sm.1 w.crates
      ({ boss := some bc.1
         projectiles := w.projectiles ++ sm.2
         crates := bc.2 }, Signal.none)

/-- Iterated `updateBoss` over a stream of per-tick environments. -/
def bossTrace (envs : ℕ → BossEnv) (w0 : BossWorld) : ℕ → BossWorld
  | 0 => w0
  | n + 1 => (updateBoss (envs n) (bossTrace envs w0 n)).1

/-! ### Win condition (`tick`, step 7) -/

/-- `isTouchingGoal`: overlap with the goal platform expanded by the
30-unit tolerance. -/
def isTouchingGoal (goal : Platform) (e : Entity) : Prop :=
  e.pos.x < goal.x + goal.width + 30 ∧ e.pos.x + e.width > goal.x - 30 ∧
    e.pos.y < goal.y + goal.height + 30 ∧ e.pos.y + e.height > goal.y - 30

/-- A rectangle expanded by a margin `t` on every side. -/
def expandRect (p : Platform) (t : ℝ) : Platform :=
  { p with x := p.x - t, y := p.y - t, width := p.width + 2 * t, height := p.height + 2 * t }

/-- The first goal platform of the level (`platforms.find(type ===
'goal')`). -/
def findGoal (plats : List Platform) : Option Platform :=
  plats.find? fun p => decide (p.type = PlatType.goal)

/-- Step 7 of `tick`: on non-boss levels with a goal platform the level
is complete exactly when the tether is linked and both characters touch
the expanded goal. -/
def winCheck (hasBoss : Bool) (plats : List Platform) (isTethered : Bool)
    (guide companion : Entity) : Bool :=
  match findGoal plats with
  | none => false
  | some goal =>
    if hasBoss = true then false
    else if isTethered = true ∧ isTouchingGoal goal companion ∧ isTouchingGoal goal guide
      then true else false

/-! ### Concrete instances used by witnesses and counterexamples -/

/-- A resting 30×30 character at a given position with full health. -/
def charAt (px py : ℝ) : Entity :=
  { pos := ⟨px, py⟩, vel := ⟨0, 0⟩, width := 30, height := 30,
    isGrounded := false, hp := 5, maxHp := 5, invulnerableTimer := 0 }

/-- A plain static platform of the given kind. -/
def platAt (px py w h : ℝ) (t : PlatType) : Platform :=
  { x := px, y := py, width := w, height := h, type := t,
    moving := none, gateId := none, isOpen := false }

/-- A pressure button targeting gate 1. -/
def btnAt (px : ℝ) : Button :=
  { id := 1, triggerGateId := some 1, triggerSpawnerId := none,
    x := px, y := 20, width := 40, height := 15, isPressed := false }

/-- The gate platform driven by the witness buttons. -/
def gatePlat : Platform :=
  { x := 300, y := 0, width := 20, height := 100, type := PlatType.gate,
    moving := none, gateId := some 1, isOpen := false }

/-- A concrete boss over the witness parameters (phase 1, no
invulnerability). -/
def bossW (hp timer shots : ℤ) (st : BossState) : Boss :=
  { x := 0, y := 0, width := 80, height := 80, hp := hp, maxHp := 10, phase := 1,
    attackTimer := timer, shotCount := shots, invulnerableTimer := 0, state := st }

/-- A trivial per-tick boss environment for witnesses. -/
def envW : BossEnv :=
  { guide := charAt 0 0, time := 0, rand := fun _ => 0 }

/-! ## Theorems -/

theorem touching_iff_expand (goal : Platform) (e : Entity) :
    isTouchingGoal goal e ↔ platOverlap e (expandRect goal 30) := by
  unfold isTouchingGoal platOverlap rectOverlap expandRect
  dsimp only
  constructor <;> rintro ⟨h1, h2, h3, h4⟩ <;>
    exact ⟨by linarith, by linarith, by linarith, by linarith⟩

/-- C6: on a non-boss level whose platform list contains a goal
platform, the level-complete outcome fires on a tick exactly when the
tether is linked and both the guide and the companion overlap the goal
platform expanded by the 30-unit tolerance margin; if any of these is
false, no win occurs that tick. -/
theorem C6_win_iff (plats : List Platform) (goal : Platform) (isTethered : Bool)
    (guide companion : Entity) (hg : findGoal plats = some goal) :
    winCheck false plats isTethered guide companion = true ↔
      (isTethered = true ∧ platOverlap companion (expandRect goal 30) ∧
        platOverlap guide (expandRect goal 30)) := by
  unfold winCheck
  rw [hg]
  simp only [Bool.false_eq_true, if_false]
  rw [touching_iff_expand, touching_iff_expand]
  by_cases h : isTethered = true ∧ platOverlap companion (expandRect goal 30) ∧
      platOverlap guide (expandRect goal 30)
  · rw [if_pos h]
    simp [h]
  · rw [if_neg h]
    simp [h]

theorem C6_win_iff_witness :
    winCheck false [platAt 0 100 100 20 PlatType.goal] true
        (charAt 10 60) (charAt 50 60) = true ↔
      (true = true ∧
        platOverlap (charAt 50 60) (expandRect (platAt 0 100 100 20 PlatType.goal) 30) ∧
        platOverlap (charAt 10 60) (expandRect (platAt 0 100 100 20 PlatType.goal) 30)) :=
  C6_win_iff _ _ _ _ _ rfl

/-- C3: with the draw input held and a last draw point recorded, a
segment is committed iff the stroke distance exceeds 10, the ink budget
covers half the distance, and the endpoint avoids every no-ink zone; a
commit subtracts exactly half the distance from the budget, appends the
segment, and moves the last point to the endpoint; a rejection leaves
both the budget and the bridge list unchanged. -/
theorem C3_draw_commit (zones : List Zone) (inp : DrawInput) (s : DrawState) (lp : Vec2)
    (hm : inp.mouseDown = true) (hl : s.lastMousePos = some lp) :
    ((drawStep zones inp s).bridges ≠ s.bridges ↔
      (euclid (inp.mx + inp.cameraX - lp.x) (inp.my - lp.y) > 10 ∧
        s.inkLeft ≥ euclid (inp.mx + inp.cameraX - lp.x) (inp.my - lp.y) * 0.5 ∧
        ∀ z ∈ zones, ¬ inZone (inp.mx + inp.cameraX) inp.my z)) ∧
    ((euclid (inp.mx + inp.cameraX - lp.x) (inp.my - lp.y) > 10 ∧
        s.inkLeft ≥ euclid (inp.mx + inp.cameraX - lp.x) (inp.my - lp.y) * 0.5 ∧
        ∀ z ∈ zones, ¬ inZone (inp.mx + inp.cameraX) inp.my z) →
      drawStep zones inp s =
        { inkLeft := s.inkLeft - euclid (inp.mx + inp.cameraX - lp.x) (inp.my - lp.y) * 0.5
          bridges := s.bridges ++ [⟨lp, ⟨inp.mx + inp.cameraX, inp.my⟩, 1⟩]
          lastMousePos := some ⟨inp.mx + inp.cameraX, inp.my⟩
          bridgeCount := s.bridgeCount + 1 }) ∧
    (¬ (euclid (inp.mx + inp.cameraX - lp.x) (inp.my - lp.y) > 10 ∧
        s.inkLeft ≥ euclid (inp.mx + inp.cameraX - lp.x) (inp.my - lp.y) * 0.5 ∧
        ∀ z ∈ zones, ¬ inZone (inp.mx + inp.cameraX) inp.my z) →
      (drawStep zones inp s).bridges = s.bridges ∧
        (drawStep zones inp s).inkLeft = s.inkLeft) := by
  set d := euclid (inp.mx + inp.cameraX - lp.x) (inp.my - lp.y) with hd
  have happ : s.bridges ++ [(⟨lp, ⟨inp.mx + inp.cameraX, inp.my⟩, 1⟩ : BridgeSegment)] ≠
      s.bridges := by
    intro h
    have := congrArg List.length h
    simp at this
  by_cases hink : s.inkLeft > 0
  · rw [drawStep, if_pos ⟨hm, hink⟩, hl]
    by_cases hz : ∀ z ∈ zones, ¬ inZone (inp.mx + inp.cameraX) inp.my z
    · rw [if_pos hz]
      dsimp only
      rw [← hd]
      by_cases hdist : d > 10
      · rw [if_pos hdist]
        by_cases hcost : s.inkLeft ≥ d * 0.5
        · rw [if_pos hcost]
          refine ⟨?_, ?_, ?_⟩
          · simpa using ⟨hdist, hcost, hz⟩
          · intro _
            rfl
          · intro hcon
            exact absurd ⟨hdist, hcost, hz⟩ hcon
        · rw [if_neg hcost]
          refine ⟨?_, ?_, ?_⟩
          · simp only [ne_eq, not_true_eq_false, false_iff]
            rintro ⟨-, h2, -⟩
            exact hcost h2
          · rintro ⟨-, h2, -⟩
            exact absurd h2 hcost
          · exact fun _ => ⟨rfl, rfl⟩
      · rw [if_neg hdist]
        refine ⟨?_, ?_, ?_⟩
        · simp only [ne_eq, not_true_eq_false, false_iff]
          rintro ⟨h1, -, -⟩
          exact hdist h1
        · rintro ⟨h1, -, -⟩
          exact absurd h1 hdist
        · exact fun _ => ⟨rfl, rfl⟩
    · rw [if_neg hz]
      refine ⟨?_, ?_, ?_⟩
      · simp only [ne_eq, not_true_eq_false, false_iff]
        rintro ⟨-, -, h3⟩
        exact hz h3
      · rintro ⟨-, -, h3⟩
        exact absurd h3 hz
      · exact fun _ => ⟨rfl, rfl⟩
  · rw [drawStep, if_neg fun h => hink h.2]
    refine ⟨?_, ?_, ?_⟩
    · simp only [ne_eq, not_true_eq_false, false_iff]
      rintro ⟨h1, h2, -⟩
      exact hink (by nlinarith)
    · rintro ⟨h1, h2, -⟩
      exact absurd (by nlinarith : s.inkLeft > 0) hink
    · exact fun _ => ⟨rfl, rfl⟩

theorem C3_draw_commit_witness :
    ((drawStep [] ⟨true, 40, 0, 0⟩ ⟨100, [], some ⟨0, 0⟩, 0⟩).bridges ≠
        (⟨100, [], some ⟨0, 0⟩, 0⟩ : DrawState).bridges ↔
      (euclid (40 + 0 - 0) (0 - 0) > 10 ∧
        (100 : ℝ) ≥ euclid (40 + 0 - 0) (0 - 0) * 0.5 ∧
        ∀ z ∈ ([] : List Zone), ¬ inZone (40 + 0) 0 z)) ∧
    ((euclid (40 + 0 - 0) (0 - 0) > 10 ∧
        (100 : ℝ) ≥ euclid (40 + 0 - 0) (0 - 0) * 0.5 ∧
        ∀ z ∈ ([] : List Zone), ¬ inZone (40 + 0) 0 z) →
      drawStep [] ⟨true, 40, 0, 0⟩ ⟨100, [], some ⟨0, 0⟩, 0⟩ =
        { inkLeft := 100 - euclid (40 + 0 - 0) (0 - 0) * 0.5
          bridges := [] ++ [⟨⟨0, 0⟩, ⟨40 + 0, 0⟩, 1⟩]
          lastMousePos := some ⟨40 + 0, 0⟩
          bridgeCount := 0 + 1 }) ∧
    (¬ (euclid (40 + 0 - 0) (0 - 0) > 10 ∧
        (100 : ℝ) ≥ euclid (40 + 0 - 0) (0 - 0) * 0.5 ∧
        ∀ z ∈ ([] : List Zone), ¬ inZone (40 + 0) 0 z) →
      (drawStep [] ⟨true, 40, 0, 0⟩ ⟨100, [], some ⟨0, 0⟩, 0⟩).bridges =
          (⟨100, [], some ⟨0, 0⟩, 0⟩ : DrawState).bridges ∧
        (drawStep [] ⟨true, 40, 0, 0⟩ ⟨100, [], some ⟨0, 0⟩, 0⟩).inkLeft =
          (⟨100, [], some ⟨0, 0⟩, 0⟩ : DrawState).inkLeft) :=
  C3_draw_commit [] ⟨true, 40, 0, 0⟩ ⟨100, [], some ⟨0, 0⟩, 0⟩ ⟨0, 0⟩ rfl rfl

theorem drawStep_ink_le (zones : List Zone) (inp : DrawInput) (s : DrawState) :
    (drawStep zones inp s).inkLeft ≤ s.inkLeft ∧
      (0 ≤ s.inkLeft → 0 ≤ (drawStep zones inp s).inkLeft) := by
  rw [drawStep]
  by_cases h1 : inp.mouseDown = true ∧ s.inkLeft > 0
  · rw [if_pos h1]
    by_cases hz : ∀ z ∈ zones, ¬ inZone (inp.mx + inp.cameraX) inp.my z
    · rw [if_pos hz]
      rcases hlp : s.lastMousePos with - | lp
      · exact ⟨le_refl _, fun h => h⟩
      · dsimp only
        by_cases hdist :
            euclid (inp.mx + inp.cameraX - lp.x) (inp.my - lp.y) > 10
        · rw [if_pos hdist]
          by_cases hcost : s.inkLeft ≥
              euclid (inp.mx + inp.cameraX - lp.x) (inp.my - lp.y) * 0.5
          · rw [if_pos hcost]
            constructor
            · dsimp only
              nlinarith
            · intro _
              dsimp only
              linarith
          · rw [if_neg hcost]
            exact ⟨le_refl _, fun h => h⟩
        · rw [if_neg hdist]
          exact ⟨le_refl _, fun h => h⟩
    · rw [if_neg hz]
      exact ⟨le_refl _, fun h => h⟩
  · rw [if_neg h1]
    exact ⟨le_refl _, fun h => h⟩

/-- C4: over every sequence of ticks within one attempt, the ink budget
is monotonically non-increasing and, starting from a non-negative
budget, never becomes negative. -/
theorem C4_ink_monotone (zones : List Zone) (inputs : ℕ → DrawInput) (s0 : DrawState)
    (h0 : 0 ≤ s0.inkLeft) : ∀ m n : ℕ, m ≤ n →
    (drawTrace zones inputs s0 n).inkLeft ≤ (drawTrace zones inputs s0 m).inkLeft ∧
      0 ≤ (drawTrace zones inputs s0 n).inkLeft := by
  have nonneg : ∀ n, 0 ≤ (drawTrace zones inputs s0 n).inkLeft := by
    intro n
    induction n with
    | zero => exact h0
    | succ k ih => exact (drawStep_ink_le zones (inputs k) (drawTrace zones inputs s0 k)).2 ih
  intro m n hmn
  refine ⟨?_, nonneg n⟩
  induction hmn with
  | refl => exact le_refl _
  | step h ih =>
    exact le_trans (drawStep_ink_le zones (inputs _) (drawTrace zones inputs s0 _)).1 ih

theorem C4_ink_monotone_witness :
    (drawTrace [] (fun _ => ⟨false, 0, 0, 0⟩) ⟨100, [], none, 0⟩ 1).inkLeft ≤
      (drawTrace [] (fun _ => ⟨false, 0, 0, 0⟩) ⟨100, [], none, 0⟩ 0).inkLeft ∧
    0 ≤ (drawTrace [] (fun _ => ⟨false, 0, 0, 0⟩) ⟨100, [], none, 0⟩ 1).inkLeft :=
  C4_ink_monotone [] (fun _ => ⟨false, 0, 0, 0⟩) ⟨100, [], none, 0⟩ (by norm_num) 0 1
    (by norm_num)

/-- C5: the tether correction force is applied on a tick exactly when
the tether is linked and the guide–companion distance exceeds 70 (the
companion's drag runs regardless); a toggle request while linked always
disconnects, and a toggle request while unlinked reconnects exactly
when the distance is below 100, being silently ignored otherwise. -/
theorem C5_tether (keyE cd isTethered : Bool) (guide companion : Entity) :
    (isTethered = true → tetherDist guide companion > 70 →
      tetherStep isTethered guide companion =
        ((applyTetherForce guide companion).1,
          { (applyTetherForce guide companion).2 with
              vel := Vec2.mk ((applyTetherForce guide companion).2.vel.x * 0.9)
                (applyTetherForce guide companion).2.vel.y })) ∧
    (¬ (isTethered = true ∧ tetherDist guide companion > 70) →
      tetherStep isTethered guide companion =
        (guide, { companion with vel := Vec2.mk (companion.vel.x * 0.9) companion.vel.y })) ∧
    ((tetherStep isTethered guide companion).1 = guide ↔
      ¬ (isTethered = true ∧ tetherDist guide companion > 70)) ∧
    (keyE = true → cd = false → isTethered = true →
      toggleStep keyE cd isTethered guide companion = (false, true)) ∧
    (keyE = true → cd = false → isTethered = false →
      ((toggleStep keyE cd isTethered guide companion).1 = true ↔
        tetherDist guide companion < 100)) := by
  refine ⟨?_, ?_, ?_, ?_, ?_⟩
  · intro h1 h2
    rw [tetherStep, if_pos ⟨h1, h2⟩]
  · intro h
    rw [tetherStep, if_neg h]
  · by_cases h : isTethered = true ∧ tetherDist guide companion > 70
    · rw [tetherStep, if_pos h]
      refine iff_of_false ?_ (by simpa using h)
      intro heq
      have heq1 : (applyTetherForce guide companion).1 = guide := heq
      have hx := congrArg (fun e => e.vel.x) heq1
      have hy := congrArg (fun e => e.vel.y) heq1
      simp only [applyTetherForce] at hx hy
      have hd70 : euclid (guide.pos.x - companion.pos.x)
          (guide.pos.y - companion.pos.y) > 70 := by
        have := h.2
        rwa [tetherDist] at this
      set angle := atan2 (guide.pos.y - companion.pos.y) (guide.pos.x - companion.pos.x)
      set force := (euclid (guide.pos.x - companion.pos.x)
        (guide.pos.y - companion.pos.y) - 70) * 0.05 with hforce_def
      have hforce : force > 0 := by
        rw [hforce_def]
        nlinarith
      have hcos : Real.cos angle = 0 := by
        have h0 : Real.cos angle * force * 0.2 = 0 := by linarith
        rcases mul_eq_zero.1 ((mul_eq_zero.1 h0).resolve_right (by norm_num)) with hc | hf
        · exact hc
        · exact absurd hf (ne_of_gt hforce)
      have hsin : Real.sin angle = 0 := by
        have h0 : Real.sin angle * force * 0.2 = 0 := by linarith
        rcases mul_eq_zero.1 ((mul_eq_zero.1 h0).resolve_right (by norm_num)) with hs | hf
        · exact hs
        · exact absurd hf (ne_of_gt hforce)
      have hone := Real.sin_sq_add_cos_sq angle
      rw [hsin, hcos] at hone
      norm_num at hone
    · rw [tetherStep, if_neg h]
      simpa using h
  · intro hk hc ht
    rw [toggleStep, if_pos hk, if_pos (by rw [hc]), if_pos ht]
  · intro hk hc ht
    rw [toggleStep, if_pos hk, if_pos (by rw [hc]), if_neg (by rw [ht]; exact Bool.false_ne_true)]
    by_cases hd : tetherDist guide companion < 100
    · rw [if_pos hd]
      simpa using hd
    · rw [if_neg hd, ht]
      simp only [Bool.false_eq_true, false_iff]
      exact hd

theorem C5_tether_witness :
    toggleStep true false true (charAt 0 0) (charAt 40 0) = (false, true) :=
  (C5_tether true false true (charAt 0 0) (charAt 40 0)).2.2.2.1 rfl rfl rfl

theorem surviving_sound (g : Entity) (prs : List Projectile) :
    ∀ q ∈ surviving g prs, 0 < q.life ∧ ¬ checkHit g q := by
  induction prs with
  | nil =>
    intro q hq
    simp [surviving] at hq
  | cons pr rest ih =>
    intro q hq
    rw [surviving] at hq
    by_cases hc : 0 < (moveProj pr).life ∧ ¬ checkHit g (moveProj pr)
    · rw [if_pos hc] at hq
      rcases List.mem_cons.1 hq with hq | hq
      · rw [hq]
        exact hc
      · exact ih q hq
    · rw [if_neg hc] at hq
      exact ih q hq

/-- C9: while the guide's invulnerability counter is positive, the
projectile sweep leaves the guide (in particular its hp) unchanged and
emits no loss signal, yet every projectile that contacts the guide is
destroyed: the surviving list keeps exactly the moved projectiles that
are still alive and do not hit. -/
theorem C9_projectile_invuln (hpMode : Bool) (g : Entity) (prs : List Projectile)
    (h : 0 < g.invulnerableTimer) :
    updateProjectiles hpMode g prs = (g, surviving g prs, false) ∧
      ∀ q ∈ surviving g prs, 0 < q.life ∧ ¬ checkHit g q := by
  refine ⟨?_, surviving_sound g prs⟩
  have hdmg : takeDamage hpMode g = (g, Signal.none) := by
    rw [takeDamage, if_pos h]
  induction prs with
  | nil => rfl
  | cons pr rest ih =>
    rw [updateProjectiles, ih]
    dsimp only
    by_cases hlife : (moveProj pr).life ≤ 0
    · have hcond : ¬ (0 < (moveProj pr).life ∧ ¬ checkHit g (moveProj pr)) := by
        rintro ⟨h1, -⟩
        exact absurd h1 (not_lt.2 hlife)
      rw [surviving, if_pos hlife, if_neg hcond]
    · by_cases hhit : checkHit g (moveProj pr)
      · have hcond : ¬ (0 < (moveProj pr).life ∧ ¬ checkHit g (moveProj pr)) := by
          rintro ⟨-, h2⟩
          exact h2 hhit
        rw [surviving, if_neg hlife, if_pos hhit, hdmg, if_neg hcond]
        dsimp only
        rw [if_neg (by simp : ¬ (Signal.none = Signal.gameOver))]
      · rw [surviving, if_neg hlife, if_neg hhit, if_pos ⟨not_le.1 hlife, hhit⟩]

theorem C9_projectile_invuln_witness :
    updateProjectiles true { charAt 0 0 with invulnerableTimer := 30 }
        [⟨15, 15, 0, 0, 8, 10⟩] =
      ({ charAt 0 0 with invulnerableTimer := 30 },
        surviving { charAt 0 0 with invulnerableTimer := 30 } [⟨15, 15, 0, 0, 8, 10⟩],
        false) ∧
      ∀ q ∈ surviving { charAt 0 0 with invulnerableTimer := 30 } [⟨15, 15, 0, 0, 8, 10⟩],
        0 < q.life ∧ ¬ checkHit { charAt 0 0 with invulnerableTimer := 30 } q :=
  C9_projectile_invuln true { charAt 0 0 with invulnerableTimer := 30 }
    [⟨15, 15, 0, 0, 8, 10⟩] (by norm_num [charAt])

@[simp]
theorem bossInvulnStep_hp (b : Boss) : (bossInvulnStep b).hp = b.hp := by
  rw [bossInvulnStep]
  split_ifs <;> rfl

@[simp]
theorem bossInvulnStep_phase (b : Boss) : (bossInvulnStep b).phase = b.phase := by
  rw [bossInvulnStep]
  split_ifs <;> rfl

@[simp]
theorem bossInvulnStep_state (b : Boss) : (bossInvulnStep b).state = b.state := by
  rw [bossInvulnStep]
  split_ifs <;> rfl

@[simp]
theorem bossInvulnStep_attackTimer (b : Boss) :
    (bossInvulnStep b).attackTimer = b.attackTimer := by
  rw [bossInvulnStep]
  split_ifs <;> rfl

@[simp]
theorem bossInvulnStep_shotCount (b : Boss) :
    (bossInvulnStep b).shotCount = b.shotCount := by
  rw [bossInvulnStep]
  split_ifs <;> rfl

@[simp]
theorem bossInvulnStep_x (b : Boss) : (bossInvulnStep b).x = b.x := by
  rw [bossInvulnStep]
  split_ifs <;> rfl

@[simp]
theorem bossInvulnStep_y (b : Boss) : (bossInvulnStep b).y = b.y := by
  rw [bossInvulnStep]
  split_ifs <;> rfl

@[simp]
theorem bossInvulnStep_width (b : Boss) : (bossInvulnStep b).width = b.width := by
  rw [bossInvulnStep]
  split_ifs <;> rfl

@[simp]
theorem bossInvulnStep_height (b : Boss) : (bossInvulnStep b).height = b.height := by
  rw [bossInvulnStep]
  split_ifs <;> rfl

@[simp]
theorem bossPhaseCheck_hp (b : Boss) : (bossPhaseCheck b).hp = b.hp := by
  rw [bossPhaseCheck]
  split_ifs <;> rfl

@[simp]
theorem bossPhaseCheck_x (b : Boss) : (bossPhaseCheck b).x = b.x := by
  rw [bossPhaseCheck]
  split_ifs <;> rfl

@[simp]
theorem bossPhaseCheck_y (b : Boss) : (bossPhaseCheck b).y = b.y := by
  rw [bossPhaseCheck]
  split_ifs <;> rfl

@[simp]
theorem bossPhaseCheck_width (b : Boss) : (bossPhaseCheck b).width = b.width := by
  rw [bossPhaseCheck]
  split_ifs <;> rfl

@[simp]
theorem bossPhaseCheck_height (b : Boss) : (bossPhaseCheck b).height = b.height := by
  rw [bossPhaseCheck]
  split_ifs <;> rfl

@[simp]
theorem bossPhaseCheck_invuln (b : Boss) :
    (bossPhaseCheck b).invulnerableTimer = b.invulnerableTimer := by
  rw [bossPhaseCheck]
  split_ifs <;> rfl

theorem bossStateMachine_phase (env : BossEnv) (b : Boss) :
    (bossStateMachine env b).1.phase = b.phase := by
  rcases hs : b.state <;> rw [bossStateMachine, hs] <;> dsimp only <;> split_ifs <;> rfl

theorem bossStateMachine_hp (env : BossEnv) (b : Boss) :
    (bossStateMachine env b).1.hp = b.hp := by
  rcases hs : b.state <;> rw [bossStateMachine, hs] <;> dsimp only <;> split_ifs <;> rfl

theorem bombCollisions_fields (b : Boss) (cs : List Crate) :
    (bombCollisions b cs).1.x = b.x ∧ (bombCollisions b cs).1.y = b.y ∧
      (bombCollisions b cs).1.width = b.width ∧
      (bombCollisions b cs).1.height = b.height ∧
      (bombCollisions b cs).1.phase = b.phase ∧
      (bombCollisions b cs).1.state = b.state ∧
      (bombCollisions b cs).1.attackTimer = b.attackTimer ∧
      (bombCollisions b cs).1.shotCount = b.shotCount := by
  induction cs with
  | nil => exact ⟨rfl, rfl, rfl, rfl, rfl, rfl, rfl, rfl⟩
  | cons c rest ih =>
    rw [bombCollisions]
    dsimp only
    split_ifs <;>
      exact ⟨ih.1, ih.2.1, ih.2.2.1, ih.2.2.2.1, ih.2.2.2.2.1, ih.2.2.2.2.2.1,
        ih.2.2.2.2.2.2.1, ih.2.2.2.2.2.2.2⟩

theorem bombCollisions_hp (b : Boss) (cs : List Crate) :
    ((bombCollisions b cs).1.hp = b.hp ∧
        (bombCollisions b cs).1.invulnerableTimer = b.invulnerableTimer) ∨
      ((bombCollisions b cs).1.hp = b.hp - 1 ∧
        (bombCollisions b cs).1.invulnerableTimer = 60) := by
  induction cs with
  | nil => exact Or.inl ⟨rfl, rfl⟩
  | cons c rest ih =>
    rw [bombCollisions]
    dsimp only
    by_cases hhit : c.type = CrateType.bomb ∧
        euclid (c.pos.x + c.width / 2 - ((bombCollisions b rest).1.x + (bombCollisions b rest).1.width / 2))
          (c.pos.y + c.height / 2 - ((bombCollisions b rest).1.y + (bombCollisions b rest).1.height / 2)) <
          (bombCollisions b rest).1.width / 2 + c.width / 2
    · rw [if_pos hhit]
      by_cases hiv : (bombCollisions b rest).1.invulnerableTimer ≤ 0
      · rw [if_pos hiv]
        rcases ih with ⟨h1, -⟩ | ⟨-, h2⟩
        · exact Or.inr ⟨by dsimp only; rw [h1], rfl⟩
        · rw [h2] at hiv
          norm_num at hiv
      · rw [if_neg hiv]
        exact ih
    · rw [if_neg hhit]
      exact ih

theorem updateBoss_alive (env : BossEnv) (w : BossWorld) (b : Boss)
    (hb : w.boss = some b) (hpos : 0 < b.hp) :
    updateBoss env w =
      ({ boss := some (bombCollisions
            (bossStateMachine env (bossOsc env.time (bossPhaseCheck (bossInvulnStep b)))).1
            w.crates).1
         projectiles := w.projectiles ++
            (bossStateMachine env (bossOsc env.time (bossPhaseCheck (bossInvulnStep b)))).2
         crates := (bombCollisions
            (bossStateMachine env (bossOsc env.time (bossPhaseCheck (bossInvulnStep b)))).1
            w.crates).2 }, Signal.none) := by
  rw [updateBoss, hb]
  dsimp only
  rw [if_neg (by rw [bossInvulnStep_hp]; omega)]

/-- C10: on the tick the boss's phase changes from 1 to 2, the phase
check forces the behavioral state to `cooldown` and sets the attack
timer to 180, so the phase-1 volley in progress is aborted: the same
tick's state-machine step merely counts the timer down (to 179) and
fires no projectile. -/
theorem C10_phase_change_aborts (env : BossEnv) (w : BossWorld) (b : Boss)
    (hb : w.boss = some b) (hph : b.phase = 1) (hle : b.hp ≤ 3) (hpos : 0 < b.hp) :
    (bossPhaseCheck b).phase = 2 ∧ (bossPhaseCheck b).state = BossState.cooldown ∧
      (bossPhaseCheck b).attackTimer = 180 ∧
      (updateBoss env w).1.projectiles = w.projectiles ∧
      (∃ b', (updateBoss env w).1.boss = some b' ∧ b'.phase = 2 ∧
        b'.state = BossState.cooldown ∧ b'.attackTimer = 179) := by
  have hpc : ∀ c : Boss, c.phase = 1 → c.hp ≤ 3 →
      bossPhaseCheck c =
        { c with phase := 2, state := BossState.cooldown, attackTimer := 180 } := by
    intro c h1 h2
    rw [bossPhaseCheck, if_pos ⟨h1, h2⟩]
  have hsm : bossStateMachine env (bossOsc env.time (bossPhaseCheck (bossInvulnStep b))) =
      ({ bossOsc env.time (bossPhaseCheck (bossInvulnStep b)) with attackTimer := 179 },
        ([] : List Projectile)) := by
    have hst : (bossOsc env.time (bossPhaseCheck (bossInvulnStep b))).state =
        BossState.cooldown := by
      rw [bossOsc, hpc (bossInvulnStep b) (by rw [bossInvulnStep_phase]; exact hph)
        (by rw [bossInvulnStep_hp]; exact hle)]
    have hat : (bossOsc env.time (bossPhaseCheck (bossInvulnStep b))).attackTimer = 180 := by
      rw [bossOsc, hpc (bossInvulnStep b) (by rw [bossInvulnStep_phase]; exact hph)
        (by rw [bossInvulnStep_hp]; exact hle)]
    rw [bossStateMachine, hst]
    dsimp only
    rw [hat]
    rw [if_neg (by norm_num)]
    rw [hst]
    norm_num
  refine ⟨?_, ?_, ?_, ?_, ?_⟩
  · rw [hpc b hph hle]
  · rw [hpc b hph hle]
  · rw [hpc b hph hle]
  · rw [updateBoss_alive env w b hb hpos, hsm]
    simp
  · refine ⟨(bombCollisions
      { bossOsc env.time (bossPhaseCheck (bossInvulnStep b)) with attackTimer := 179 }
      w.crates).1, ?_, ?_, ?_, ?_⟩
    · rw [updateBoss_alive env w b hb hpos, hsm]
    · rw [(bombCollisions_fields _ _).2.2.2.2.1]
      dsimp only
      rw [bossOsc, hpc (bossInvulnStep b) (by rw [bossInvulnStep_phase]; exact hph)
        (by rw [bossInvulnStep_hp]; exact hle)]
    · rw [(bombCollisions_fields _ _).2.2.2.2.2.1]
      dsimp only
      rw [bossOsc, hpc (bossInvulnStep b) (by rw [bossInvulnStep_phase]; exact hph)
        (by rw [bossInvulnStep_hp]; exact hle)]
    · rw [(bombCollisions_fields _ _).2.2.2.2.2.2.1]

theorem C10_phase_change_aborts_witness :
    (bossPhaseCheck (bossW 3 1 2 BossState.attack)).phase = 2 ∧
      (bossPhaseCheck (bossW 3 1 2 BossState.attack)).state = BossState.cooldown ∧
      (bossPhaseCheck (bossW 3 1 2 BossState.attack)).attackTimer = 180 ∧
      (updateBoss envW ⟨some (bossW 3 1 2 BossState.attack), [], []⟩).1.projectiles = [] ∧
      (∃ b', (updateBoss envW ⟨some (bossW 3 1 2 BossState.attack), [], []⟩).1.boss =
          some b' ∧
        b'.phase = 2 ∧ b'.state = BossState.cooldown ∧ b'.attackTimer = 179) :=
  C10_phase_change_aborts envW ⟨some (bossW 3 1 2 BossState.attack), [], []⟩ _
    rfl rfl (by norm_num [bossW]) (by norm_num [bossW])

/-- C8: in phase 1, every tick whose attack step reaches an elapsed
timer emits exactly one projectile aimed from the boss center toward
the guide's current center and increments the volley counter; below 5
shots the per-shot timer re-arms to 60 with the boss still attacking,
and at the 5th shot the boss enters `cooldown` with a 180-tick rest. -/
theorem C8_phase1_volley (env : BossEnv) (w : BossWorld) (b : Boss)
    (hb : w.boss = some b) (hst : b.state = BossState.attack) (hph : b.phase = 1)
    (hhp : 4 ≤ b.hp) (ht : b.attackTimer ≤ 1) :
    (updateBoss env w).1.projectiles = w.projectiles ++
        [aimedProjectile (b.x + b.width / 2)
          (b.y + Real.sin (env.time * 0.1) * 0.5 + b.height / 2)
          (env.guide.pos.x + env.guide.width / 2)
          (env.guide.pos.y + env.guide.height / 2) 5 8] ∧
      ∃ b', (updateBoss env w).1.boss = some b' ∧
        b'.shotCount = b.shotCount + 1 ∧
        (b.shotCount + 1 < 5 → b'.state = BossState.attack ∧ b'.attackTimer = 60) ∧
        (5 ≤ b.shotCount + 1 → b'.state = BossState.cooldown ∧ b'.attackTimer = 180) := by
  have hpos : 0 < b.hp := by omega
  have hpc0 : bossPhaseCheck (bossInvulnStep b) = bossInvulnStep b := by
    rw [bossPhaseCheck, if_neg]
    rintro ⟨-, h3⟩
    rw [bossInvulnStep_hp] at h3
    omega
  rw [updateBoss_alive env w b hb hpos, hpc0]
  set c := bossOsc env.time (bossInvulnStep b) with hc
  have hcstate : c.state = BossState.attack := by
    rw [hc]
    show (bossInvulnStep b).state = _
    rw [bossInvulnStep_state, hst]
  have hcph : c.phase = 1 := by
    rw [hc]
    show (bossInvulnStep b).phase = _
    rw [bossInvulnStep_phase, hph]
  have hcat : c.attackTimer = b.attackTimer := by
    rw [hc]
    show (bossInvulnStep b).attackTimer = _
    rw [bossInvulnStep_attackTimer]
  have hcsc : c.shotCount = b.shotCount := by
    rw [hc]
    show (bossInvulnStep b).shotCount = _
    rw [bossInvulnStep_shotCount]
  have hcx : c.x = b.x := by
    rw [hc]
    show (bossInvulnStep b).x = _
    rw [bossInvulnStep_x]
  have hcy : c.y = b.y + Real.sin (env.time * 0.1) * 0.5 := by
    rw [hc]
    show (bossInvulnStep b).y + _ = _
    rw [bossInvulnStep_y]
  have hcw : c.width = b.width := by
    rw [hc]
    show (bossInvulnStep b).width = _
    rw [bossInvulnStep_width]
  have hch : c.height = b.height := by
    rw [hc]
    show (bossInvulnStep b).height = _
    rw [bossInvulnStep_height]
  by_cases h5 : 5 ≤ b.shotCount + 1
  · have hsm : bossStateMachine env c =
        ({ c with
            attackTimer := 180
            shotCount := c.shotCount + 1
            state := BossState.cooldown },
          [aimedProjectile (c.x + c.width / 2) (c.y + c.height / 2)
            (env.guide.pos.x + env.guide.width / 2)
            (env.guide.pos.y + env.guide.height / 2) 5 8]) := by
      rw [bossStateMachine, hcstate]
      dsimp only
      rw [if_pos (show c.attackTimer - 1 ≤ 0 by rw [hcat]; omega),
        if_pos (show c.phase = 1 from hcph),
        if_pos (show c.shotCount + 1 ≥ (5 : ℤ) by rw [hcsc]; omega)]
    rw [hsm]
    dsimp only
    constructor
    · rw [hcx, hcy, hcw, hch]
    · refine ⟨_, rfl, ?_, ?_, ?_⟩
      · rw [(bombCollisions_fields _ _).2.2.2.2.2.2.2]
        dsimp only
        rw [hcsc]
      · intro hlt
        omega
      · intro _
        exact ⟨(bombCollisions_fields _ _).2.2.2.2.2.1,
          (bombCollisions_fields _ _).2.2.2.2.2.2.1⟩
  · have hsm : bossStateMachine env c =
        ({ c with
            attackTimer := 60
            shotCount := c.shotCount + 1 },
          [aimedProjectile (c.x + c.width / 2) (c.y + c.height / 2)
            (env.guide.pos.x + env.guide.width / 2)
            (env.guide.pos.y + env.guide.height / 2) 5 8]) := by
      rw [bossStateMachine, hcstate]
      dsimp only
      rw [if_pos (show c.attackTimer - 1 ≤ 0 by rw [hcat]; omega),
        if_pos (show c.phase = 1 from hcph),
        if_neg (show ¬ c.shotCount + 1 ≥ (5 : ℤ) by rw [hcsc]; omega)]
    rw [hsm]
    dsimp only
    constructor
    · rw [hcx, hcy, hcw, hch]
    · refine ⟨_, rfl, ?_, ?_, ?_⟩
      · rw [(bombCollisions_fields _ _).2.2.2.2.2.2.2]
        dsimp only
        rw [hcsc]
      · intro _
        refine ⟨?_, ?_⟩
        · rw [(bombCollisions_fields _ _).2.2.2.2.2.1]
          dsimp only
          exact hcstate
        · exact (bombCollisions_fields _ _).2.2.2.2.2.2.1
      · intro hge
        omega

theorem C8_phase1_volley_witness :
    (updateBoss envW ⟨some (bossW 5 1 0 BossState.attack), [], []⟩).1.projectiles =
      [aimedProjectile (0 + 80 / 2) (0 + Real.sin (0 * 0.1) * 0.5 + 80 / 2)
        (0 + 30 / 2) (0 + 30 / 2) 5 8] ∧
      ∃ b', (updateBoss envW ⟨some (bossW 5 1 0 BossState.attack), [], []⟩).1.boss =
          some b' ∧
        b'.shotCount = 0 + 1 ∧
        ((0 : ℤ) + 1 < 5 → b'.state = BossState.attack ∧ b'.attackTimer = 60) ∧
        ((5 : ℤ) ≤ 0 + 1 → b'.state = BossState.cooldown ∧ b'.attackTimer = 180) :=
  C8_phase1_volley envW ⟨some (bossW 5 1 0 BossState.attack), [], []⟩ _
    rfl rfl rfl (by norm_num [bossW]) (by norm_num [bossW])

@[simp]
theorem stepInvuln_hp (isPlayer : Bool) (e : Entity) :
    (stepInvuln isPlayer e).hp = e.hp := by
  rw [stepInvuln]
  split_ifs <;> rfl

theorem stepInvuln_overlap (isPlayer : Bool) (e : Entity) (p : Platform) :
    platOverlap (stepInvuln isPlayer e) p ↔ platOverlap e p := by
  rw [stepInvuln]
  split_ifs <;> exact Iff.rfl

theorem updatePlatformCollisions_hazard (time : ℝ) (pre rest : List Platform)
    (hz : Platform) (e : Entity) (hty : hz.type = PlatType.hazard)
    (hov : platOverlap e hz) (hpre : ∀ q ∈ pre, ¬ platOverlap e q) :
    updatePlatformCollisions time true (pre ++ hz :: rest) e = (e, Signal.gameOver) := by
  induction pre with
  | nil =>
    rw [List.nil_append, updatePlatformCollisions, if_pos hov, if_pos ⟨hty, rfl⟩]
  | cons q pre ih =>
    rw [List.cons_append, updatePlatformCollisions,
      if_neg (hpre q (List.mem_cons_self q pre))]
    exact ih fun q' hq' => hpre q' (List.mem_cons_of_mem q hq')

/-- C7 (amended): if a player character's AABB overlaps a hazard
platform and overlaps no platform listed before it (so that no earlier
collision resolution displaces the character off the hazard before the
hazard's check runs), the loss signal fires that tick: the hazard
branch bypasses `takeDamage` entirely — no hp decrement, no
invulnerability consultation, no dependence on the level's HP mode —
and `return`s, skipping every remaining check for that character. -/
theorem C7_hazard_loss (time : ℝ) (isBomb : Bool) (pre rest : List Platform)
    (hz : Platform) (bridges : List BridgeSegment) (e : Entity)
    (hty : hz.type = PlatType.hazard) (hov : platOverlap e hz)
    (hpre : ∀ q ∈ pre, ¬ platOverlap e q) :
    updateEntityCollisions time true isBomb (pre ++ hz :: rest) bridges e =
        (stepInvuln true e, Signal.gameOver) ∧
      (updateEntityCollisions time true isBomb (pre ++ hz :: rest) bridges e).1.hp =
        e.hp := by
  have hloop : updatePlatformCollisions time true (pre ++ hz :: rest)
      (stepInvuln true e) = (stepInvuln true e, Signal.gameOver) :=
    updatePlatformCollisions_hazard time pre rest hz (stepInvuln true e) hty
      ((stepInvuln_overlap true e hz).2 hov)
      (fun q hq hc => hpre q hq ((stepInvuln_overlap true e q).1 hc))
  have hmain : updateEntityCollisions time true isBomb (pre ++ hz :: rest) bridges e =
      (stepInvuln true e, Signal.gameOver) := by
    rw [updateEntityCollisions]
    dsimp only
    rw [hloop]
    dsimp only
    rw [if_pos rfl]
  exact ⟨hmain, by rw [hmain]; exact stepInvuln_hp true e⟩

theorem C7_hazard_loss_witness :
    updateEntityCollisions 0 true false
        [platAt (-50) 120 200 50 PlatType.hazard] []
        { charAt 0 95 with vel := ⟨0, 6⟩ } =
      (stepInvuln true { charAt 0 95 with vel := ⟨0, 6⟩ }, Signal.gameOver) ∧
    (updateEntityCollisions 0 true false
        [platAt (-50) 120 200 50 PlatType.hazard] []
        { charAt 0 95 with vel := ⟨0, 6⟩ }).1.hp =
      ({ charAt 0 95 with vel := ⟨0, 6⟩ } : Entity).hp :=
  C7_hazard_loss 0 false [] [] (platAt (-50) 120 200 50 PlatType.hazard) []
    { charAt 0 95 with vel := ⟨0, 6⟩ } rfl
    (by norm_num [platOverlap, rectOverlap, platAt, charAt])
    (by simp)

/-- Counterexample to C7 as stated: at the start of the collision
phase the character overlaps a hazard platform, but an earlier ground
platform in the list resolves first, snapping the character on top of
the ground and out of the hazard's rectangle, so no loss signal fires
that tick. -/
theorem C7_hazard_counterexample :
    platOverlap { charAt 0 95 with vel := ⟨0, 6⟩ }
        (platAt (-50) 120 200 50 PlatType.hazard) ∧
      (updateEntityCollisions 0 true false
          [platAt (-50) 100 200 10 PlatType.ground, platAt (-50) 120 200 50 PlatType.hazard]
          [] { charAt 0 95 with vel := ⟨0, 6⟩ }).2 = Signal.none := by
  constructor
  · norm_num [platOverlap, rectOverlap, platAt, charAt]
  · have hne1 : ¬ (PlatType.ground = PlatType.hazard) := fun h => PlatType.noConfusion h
    have hne2 : ¬ (PlatType.ground = PlatType.gate) := fun h => PlatType.noConfusion h
    norm_num [updateEntityCollisions, stepInvuln, updatePlatformCollisions, platOverlap,
      rectOverlap, resolveCollision, platAt, charAt, hne1, hne2]

theorem pressedB_iff (guide companion : Entity) (crates : List Crate) (btn : Button) :
    pressedB guide companion crates btn = true ↔
      buttonPressed guide companion crates btn := by
  rw [pressedB]
  split_ifs with h <;> simp [h]

theorem firstGate_setGateOpen_same (gid : ℤ) (v : Bool) (plats : List Platform) :
    firstGate gid (setGateOpen gid v plats) =
      (firstGate gid plats).map fun p => { p with isOpen := v } := by
  induction plats with
  | nil => rfl
  | cons p rest ih =>
    simp only [firstGate] at ih ⊢
    rw [setGateOpen]
    by_cases hp : p.gateId = some gid
    · rw [if_pos hp, List.find?_cons_of_pos _ (by simpa using hp),
        List.find?_cons_of_pos _ (by simpa using hp)]
      rfl
    · rw [if_neg hp, List.find?_cons_of_neg _ (by simpa using hp),
        List.find?_cons_of_neg _ (by simpa using hp)]
      exact ih

theorem firstGate_setGateOpen_other (gid gid' : ℤ) (v : Bool) (plats : List Platform)
    (hne : gid' ≠ gid) :
    firstGate gid (setGateOpen gid' v plats) = firstGate gid plats := by
  induction plats with
  | nil => rfl
  | cons p rest ih =>
    simp only [firstGate] at ih ⊢
    rw [setGateOpen]
    by_cases hp : p.gateId = some gid'
    · have hnp : ¬ (p.gateId = some gid) := by
        rw [hp]
        intro hcon
        exact hne (Option.some.inj hcon)
      rw [if_pos hp, List.find?_cons_of_neg _ (by simpa using hnp),
        List.find?_cons_of_neg _ (by simpa using hnp)]
    · by_cases hq : p.gateId = some gid
      · rw [if_neg hp, List.find?_cons_of_pos _ (by simpa using hq),
          List.find?_cons_of_pos _ (by simpa using hq)]
      · rw [if_neg hp, List.find?_cons_of_neg _ (by simpa using hq),
          List.find?_cons_of_neg _ (by simpa using hq)]
        exact ih

theorem lastTargeting_none (gid : ℤ) : ∀ btns : List Button,
    lastTargeting gid btns = none → ∀ b ∈ btns, b.triggerGateId ≠ some gid := by
  intro btns
  induction btns with
  | nil =>
    intro _ b hb
    simp at hb
  | cons btn rest ih =>
    intro h b hbmem
    rw [lastTargeting] at h
    rcases hr : lastTargeting gid rest with - | b'
    · rw [hr] at h
      dsimp only at h
      by_cases hb : btn.triggerGateId = some gid
      · rw [if_pos hb] at h
        exact absurd h (by simp)
      · rcases List.mem_cons.1 hbmem with rfl | hbm
        · exact hb
        · exact ih hr b hbm
    · rw [hr] at h
      dsimp only at h
      exact absurd h (by simp)

theorem updateButtons_no_target (guide companion : Entity) (crates : List Crate)
    (gid : ℤ) : ∀ (btns : List Button) (plats : List Platform),
    (∀ b ∈ btns, b.triggerGateId ≠ some gid) →
    firstGate gid (updateButtons guide companion crates btns plats).2 =
      firstGate gid plats := by
  intro btns
  induction btns with
  | nil =>
    intro plats _
    rfl
  | cons btn rest ih =>
    intro plats hno
    have hrest : ∀ b ∈ rest, b.triggerGateId ≠ some gid :=
      fun b hb => hno b (List.mem_cons_of_mem btn hb)
    rw [updateButtons]
    dsimp only
    rcases htr : btn.triggerGateId with - | gid2
    · dsimp only
      exact ih _ hrest
    · have hne : gid2 ≠ gid := by
        intro hcon
        exact hno btn (List.mem_cons_self btn rest) (by rw [htr, hcon])
      dsimp only
      by_cases h0 : gid2 ≠ 0
      · rw [if_pos h0, ih _ hrest, firstGate_setGateOpen_other gid gid2 _ _ hne]
      · rw [if_neg h0]
        exact ih _ hrest

/-- C1 (amended): a gate's open flag after the per-tick button update
equals the pressed flag — computed that same tick — of the LAST button
in list order targeting the gate's identifier, not the OR over all such
buttons: each targeting button overwrites the flag with its own pressed
state, so with a single button per gate this coincides with the OR, but
a later unpressed button overrides an earlier pressed one. -/
theorem C1_gate_last_write (guide companion : Entity) (crates : List Crate) (gid : ℤ)
    (b : Button) (hgid : gid ≠ 0) : ∀ (btns : List Button) (plats : List Platform),
    lastTargeting gid btns = some b →
    ∀ p, firstGate gid plats = some p →
      firstGate gid (updateButtons guide companion crates btns plats).2 =
          some { p with isOpen := pressedB guide companion crates b } ∧
        (pressedB guide companion crates b = true ↔
          buttonPressed guide companion crates b) := by
  intro btns
  induction btns with
  | nil =>
    intro plats h
    simp [lastTargeting] at h
  | cons btn rest ih =>
    intro plats hlast p hp
    refine ⟨?_, pressedB_iff guide companion crates b⟩
    rw [lastTargeting] at hlast
    rcases hr : lastTargeting gid rest with - | b'
    · rw [hr] at hlast
      dsimp only at hlast
      by_cases hb : btn.triggerGateId = some gid
      · rw [if_pos hb] at hlast
        have hbb : btn = b := Option.some.inj hlast
        subst hbb
        rw [updateButtons]
        dsimp only
        rw [hb]
        dsimp only
        rw [if_pos hgid]
        rw [updateButtons_no_target guide companion crates gid rest _
          (lastTargeting_none gid rest hr)]
        rw [firstGate_setGateOpen_same gid _ plats, hp]
        rfl
      · rw [if_neg hb] at hlast
        exact absurd hlast (by simp)
    · rw [hr] at hlast
      dsimp only at hlast
      have hbb : b' = b := Option.some.inj hlast
      subst hbb
      rw [updateButtons]
      dsimp only
      rcases htr : btn.triggerGateId with - | gid2
      · dsimp only
        exact (ih _ hr p hp).1
      · dsimp only
        by_cases h0 : gid2 ≠ 0
        · rw [if_pos h0]
          by_cases hsame : gid2 = gid
          · rw [hsame]
            have hp2 : firstGate gid
                (setGateOpen gid (pressedB guide companion crates btn) plats) =
                some { p with isOpen := pressedB guide companion crates btn } := by
              rw [firstGate_setGateOpen_same, hp]
              rfl
            exact (ih _ hr _ hp2).1
          · have hp2 : firstGate gid
                (setGateOpen gid2 (pressedB guide companion crates btn) plats) =
                some p := by
              rw [firstGate_setGateOpen_other gid gid2 _ _ hsame]
              exact hp
            exact (ih _ hr p hp2).1
        · rw [if_neg h0]
          exact (ih _ hr p hp).1

theorem C1_gate_last_write_witness :
    firstGate 1 (updateButtons (charAt 0 0) (charAt 1000 1000) [] [btnAt 0]
        [gatePlat]).2 =
        some { gatePlat with
          isOpen := pressedB (charAt 0 0) (charAt 1000 1000) [] (btnAt 0) } ∧
      (pressedB (charAt 0 0) (charAt 1000 1000) [] (btnAt 0) = true ↔
        buttonPressed (charAt 0 0) (charAt 1000 1000) [] (btnAt 0)) :=
  C1_gate_last_write (charAt 0 0) (charAt 1000 1000) [] 1 (btnAt 0) (by norm_num)
    [btnAt 0] [gatePlat] (by simp [lastTargeting, btnAt]) gatePlat
    (by simp [firstGate, gatePlat, List.find?])

/-- Counterexample to C1 as stated: two buttons target gate 1; the
first is pressed (the guide stands on it) and the second is not, so the
OR over targeting buttons is true, yet after the per-tick button update
the gate's open flag is false — the last targeting button's write
wins. -/
theorem C1_gate_or_counterexample :
    buttonPressed (charAt 0 0) (charAt 1000 1000) [] (btnAt 0) ∧
      ¬ buttonPressed (charAt 0 0) (charAt 1000 1000) [] (btnAt 500) ∧
      (btnAt 0).triggerGateId = some 1 ∧ (btnAt 500).triggerGateId = some 1 ∧
      ∃ p, firstGate 1 (updateButtons (charAt 0 0) (charAt 1000 1000) []
          [btnAt 0, btnAt 500] [gatePlat]).2 = some p ∧ p.isOpen = false := by
  have hpress : buttonPressed (charAt 0 0) (charAt 1000 1000) [] (btnAt 0) := by
    norm_num [buttonPressed, checkPress, btnAt, charAt]
  have hnot : ¬ buttonPressed (charAt 0 0) (charAt 1000 1000) [] (btnAt 500) := by
    norm_num [buttonPressed, checkPress, btnAt, charAt]
  refine ⟨hpress, hnot, rfl, rfl, ?_⟩
  refine ⟨{ gatePlat with isOpen := false }, ?_, rfl⟩
  have h1 : pressedB (charAt 0 0) (charAt 1000 1000) [] (btnAt 0) = true := by
    rw [pressedB, if_pos hpress]
  have h2 : pressedB (charAt 0 0) (charAt 1000 1000) [] (btnAt 500) = false := by
    rw [pressedB, if_neg hnot]
  rw [updateButtons]
  dsimp only
  rw [show (btnAt 0).triggerGateId = some 1 from rfl]
  dsimp only
  rw [if_pos (by norm_num : (1 : ℤ) ≠ 0), h1]
  rw [updateButtons]
  dsimp only
  rw [show (btnAt 500).triggerGateId = some 1 from rfl]
  dsimp only
  rw [if_pos (by norm_num : (1 : ℤ) ≠ 0), h2]
  rw [show updateButtons (charAt 0 0) (charAt 1000 1000) [] [] _ = ([], _) from rfl]
  simp [setGateOpen, firstGate, gatePlat, List.find?]

theorem updateBoss_none (env : BossEnv) (w : BossWorld) (h : w.boss = none) :
    (updateBoss env w).1.boss = none := by
  rw [updateBoss, h]
  exact h

theorem updateBoss_dead (env : BossEnv) (w : BossWorld) (b : Boss)
    (hb : w.boss = some b) (h : b.hp ≤ 0) : (updateBoss env w).1.boss = none := by
  rw [updateBoss, hb]
  dsimp only
  rw [if_pos (by rw [bossInvulnStep_hp]; exact h)]

theorem updateBoss_boss_eq (env : BossEnv) (w : BossWorld) (b : Boss)
    (hb : w.boss = some b) (h : 0 < b.hp) :
    (updateBoss env w).1.boss = some (bombCollisions (bossStateMachine env
      (bossOsc env.time (bossPhaseCheck (bossInvulnStep b)))).1 w.crates).1 := by
  rw [updateBoss_alive env w b hb h]

theorem stepBoss_main (env : BossEnv) (w : BossWorld) (b : Boss)
    (hb : w.boss = some b) (h : 0 < b.hp) :
    ∃ b', (updateBoss env w).1.boss = some b' ∧
      (b'.hp = b.hp ∨ b'.hp = b.hp - 1) ∧
      ((b.phase = 1 ∧ b.hp ≤ 3 → b'.phase = 2) ∧
        (¬ (b.phase = 1 ∧ b.hp ≤ 3) → b'.phase = b.phase)) := by
  refine ⟨_, updateBoss_boss_eq env w b hb h, ?_, ?_⟩
  · have hbase : (bossStateMachine env (bossOsc env.time (bossPhaseCheck
        (bossInvulnStep b)))).1.hp = b.hp := by
      rw [bossStateMachine_hp]
      show (bossPhaseCheck (bossInvulnStep b)).hp = b.hp
      rw [bossPhaseCheck_hp, bossInvulnStep_hp]
    rcases bombCollisions_hp (bossStateMachine env (bossOsc env.time (bossPhaseCheck
        (bossInvulnStep b)))).1 w.crates with ⟨h1, -⟩ | ⟨h1, -⟩
    · exact Or.inl (by rw [h1, hbase])
    · exact Or.inr (by rw [h1, hbase])
  · have hphase : (bombCollisions (bossStateMachine env (bossOsc env.time
        (bossPhaseCheck (bossInvulnStep b)))).1 w.crates).1.phase =
        (bossPhaseCheck (bossInvulnStep b)).phase := by
      rw [(bombCollisions_fields _ _).2.2.2.2.1, bossStateMachine_phase]
      rfl
    constructor
    · rintro ⟨hph1, hle3⟩
      rw [hphase, bossPhaseCheck,
        if_pos (by rw [bossInvulnStep_phase, bossInvulnStep_hp]; exact ⟨hph1, hle3⟩)]
    · intro hc
      rw [hphase, bossPhaseCheck,
        if_neg (by rw [bossInvulnStep_phase, bossInvulnStep_hp]; exact hc),
        bossInvulnStep_phase]

theorem bossTrace_succ (envs : ℕ → BossEnv) (w0 : BossWorld) (t : ℕ) :
    bossTrace envs w0 (t + 1) = (updateBoss (envs t) (bossTrace envs w0 t)).1 := by
  rw [bossTrace]

theorem bossTrace_alive_back (envs : ℕ → BossEnv) (w0 : BossWorld) (t : ℕ)
    (b' : Boss) (h : (bossTrace envs w0 (t + 1)).boss = some b') :
    ∃ b, (bossTrace envs w0 t).boss = some b := by
  rcases hcase : (bossTrace envs w0 t).boss with - | b
  · rw [bossTrace_succ, updateBoss_none _ _ hcase] at h
    exact absurd h (by simp)
  · exact ⟨b, rfl⟩

theorem bossTrace_phase12 (envs : ℕ → BossEnv) (w0 : BossWorld) (b0 : Boss)
    (hb0 : w0.boss = some b0) (hph0 : b0.phase = 1) :
    ∀ t b, (bossTrace envs w0 t).boss = some b → b.phase = 1 ∨ b.phase = 2 := by
  intro t
  induction t with
  | zero =>
    intro b h
    rw [show bossTrace envs w0 0 = w0 from rfl, hb0] at h
    rw [← Option.some.inj h]
    exact Or.inl hph0
  | succ t ih =>
    intro b h
    rcases hcase : (bossTrace envs w0 t).boss with - | bt
    · rw [bossTrace_succ, updateBoss_none _ _ hcase] at h
      exact absurd h (by simp)
    · by_cases hhp : 0 < bt.hp
      · obtain ⟨b', hb', -, hphase⟩ := stepBoss_main (envs t) _ bt hcase hhp
        rw [bossTrace_succ, hb'] at h
        rw [← Option.some.inj h]
        by_cases hc : bt.phase = 1 ∧ bt.hp ≤ 3
        · exact Or.inr (hphase.1 hc)
        · rw [hphase.2 hc]
          exact ih bt hcase
      · rw [bossTrace_succ, updateBoss_dead (envs t) _ bt hcase (by omega)] at h
        exact absurd h (by simp)

theorem bossTrace_phase2_persist (envs : ℕ → BossEnv) (w0 : BossWorld) (t : ℕ)
    (b : Boss) (hb : (bossTrace envs w0 t).boss = some b) (hph : b.phase = 2) :
    ∀ u, t ≤ u → ∀ b', (bossTrace envs w0 u).boss = some b' → b'.phase = 2 := by
  intro u hu
  induction hu with
  | refl =>
    intro b' hb'
    rw [hb] at hb'
    rw [← Option.some.inj hb']
    exact hph
  | step hle ih =>
    intro b' hb'
    rcases hcase : (bossTrace envs w0 _).boss with - | bu
    · rw [bossTrace_succ, updateBoss_none _ _ hcase] at hb'
      exact absurd hb' (by simp)
    · have hphu := ih bu hcase
      by_cases hhp : 0 < bu.hp
      · obtain ⟨b2, hb2, -, hphase⟩ := stepBoss_main _ _ bu hcase hhp
        rw [bossTrace_succ, hb2] at hb'
        rw [← Option.some.inj hb']
        have hc : ¬ (bu.phase = 1 ∧ bu.hp ≤ 3) := by
          rw [hphu]
          rintro ⟨hcon, -⟩
          norm_num at hcon
        rw [hphase.2 hc, hphu]
      · rw [bossTrace_succ, updateBoss_dead _ _ bu hcase (by omega)] at hb'
        exact absurd hb' (by simp)

theorem bossTrace_hp_step (envs : ℕ → BossEnv) (w0 : BossWorld) (t : ℕ)
    (bt b' : Boss) (hbt : (bossTrace envs w0 t).boss = some bt)
    (hb' : (bossTrace envs w0 (t + 1)).boss = some b') :
    0 < bt.hp ∧ (b'.hp = bt.hp ∨ b'.hp = bt.hp - 1) := by
  by_cases hhp : 0 < bt.hp
  · obtain ⟨b2, hb2, hhp2, -⟩ := stepBoss_main _ _ bt hbt hhp
    rw [bossTrace_succ, hb2] at hb'
    rw [← Option.some.inj hb']
    exact ⟨hhp, hhp2⟩
  · rw [bossTrace_succ, updateBoss_dead _ _ bt hbt (by omega)] at hb'
    exact absurd hb' (by simp)

theorem bossTrace_trans_iff (envs : ℕ → BossEnv) (w0 : BossWorld) (t : ℕ)
    (bt : Boss) (hbt : (bossTrace envs w0 t).boss = some bt) :
    (bt.phase = 1 ∧
        ∃ b', (bossTrace envs w0 (t + 1)).boss = some b' ∧ b'.phase = 2) ↔
      (bt.phase = 1 ∧ 0 < bt.hp ∧ bt.hp ≤ 3) := by
  constructor
  · rintro ⟨hph, b', hb', hph2⟩
    have hpos := (bossTrace_hp_step envs w0 t bt b' hbt hb').1
    refine ⟨hph, hpos, ?_⟩
    obtain ⟨b2, hb2, -, hphase⟩ := stepBoss_main (envs t) _ bt hbt hpos
    rw [bossTrace_succ, hb2] at hb'
    rw [← Option.some.inj hb'] at hph2
    by_contra hc3
    have hcond : ¬ (bt.phase = 1 ∧ bt.hp ≤ 3) := fun hx => hc3 hx.2
    rw [hphase.2 hcond, hph] at hph2
    norm_num at hph2
  · rintro ⟨hph, hpos, h3⟩
    obtain ⟨b2, hb2, -, hphase⟩ := stepBoss_main (envs t) _ bt hbt hpos
    exact ⟨hph, b2, by rw [bossTrace_succ]; exact hb2, hphase.1 ⟨hph, h3⟩⟩

/-- C2: within one attempt (any stream of per-tick environments), the
boss transitions from phase 1 to phase 2 (a) exactly on the ticks where
it is alive in phase 1 with 0 < hp ≤ 3, (b) at most once, (c) with
phase 2 persisting for the rest of the boss's lifetime (never reverting
to 1), and (d) the transition does fire at the first tick at which
hp ≤ 3 holds while the phase is 1. -/
theorem C2_phase_transition (envs : ℕ → BossEnv) (w0 : BossWorld) (b0 : Boss)
    (hb0 : w0.boss = some b0) (hph0 : b0.phase = 1) (hhp0 : 1 ≤ b0.hp) :
    (∀ t, ((∃ b, (bossTrace envs w0 t).boss = some b ∧ b.phase = 1) ∧
        (∃ b', (bossTrace envs w0 (t + 1)).boss = some b' ∧ b'.phase = 2)) ↔
      (∃ b, (bossTrace envs w0 t).boss = some b ∧ b.phase = 1 ∧
        0 < b.hp ∧ b.hp ≤ 3)) ∧
    (∀ t u,
      ((∃ b, (bossTrace envs w0 t).boss = some b ∧ b.phase = 1) ∧
        (∃ b', (bossTrace envs w0 (t + 1)).boss = some b' ∧ b'.phase = 2)) →
      ((∃ b, (bossTrace envs w0 u).boss = some b ∧ b.phase = 1) ∧
        (∃ b', (bossTrace envs w0 (u + 1)).boss = some b' ∧ b'.phase = 2)) →
      t = u) ∧
    (∀ t u, t ≤ u → (∃ b, (bossTrace envs w0 t).boss = some b ∧ b.phase = 2) →
      ∀ b', (bossTrace envs w0 u).boss = some b' → b'.phase = 2) ∧
    (∀ t, (∃ b, (bossTrace envs w0 t).boss = some b ∧ b.phase = 1 ∧ b.hp ≤ 3) →
      (∀ u, u < t →
        ¬ ∃ b, (bossTrace envs w0 u).boss = some b ∧ b.phase = 1 ∧ b.hp ≤ 3) →
      ∃ b', (bossTrace envs w0 (t + 1)).boss = some b' ∧ b'.phase = 2) := by
  have htrans : ∀ t,
      ((∃ b, (bossTrace envs w0 t).boss = some b ∧ b.phase = 1) ∧
        (∃ b', (bossTrace envs w0 (t + 1)).boss = some b' ∧ b'.phase = 2)) ↔
      (∃ b, (bossTrace envs w0 t).boss = some b ∧ b.phase = 1 ∧
        0 < b.hp ∧ b.hp ≤ 3) := by
    intro t
    constructor
    · rintro ⟨⟨b, hb, hph⟩, h2⟩
      have hx := (bossTrace_trans_iff envs w0 t b hb).1 ⟨hph, h2⟩
      exact ⟨b, hb, hx.1, hx.2.1, hx.2.2⟩
    · rintro ⟨b, hb, hph, hpos, h3⟩
      have hx := (bossTrace_trans_iff envs w0 t b hb).2 ⟨hph, hpos, h3⟩
      exact ⟨⟨b, hb, hph⟩, hx.2⟩
  refine ⟨htrans, ?_, ?_, ?_⟩
  · -- at most one transition
    have haux : ∀ t u,
        ((∃ b, (bossTrace envs w0 t).boss = some b ∧ b.phase = 1) ∧
          (∃ b', (bossTrace envs w0 (t + 1)).boss = some b' ∧ b'.phase = 2)) →
        ((∃ b, (bossTrace envs w0 u).boss = some b ∧ b.phase = 1) ∧
          (∃ b', (bossTrace envs w0 (u + 1)).boss = some b' ∧ b'.phase = 2)) →
        t < u → False := by
      rintro t u ⟨-, b', hb', hph'⟩ ⟨⟨bu, hbu, hphu⟩, -⟩ hlt
      have h2 := bossTrace_phase2_persist envs w0 (t + 1) b' hb' hph' u hlt bu hbu
      rw [hphu] at h2
      norm_num at h2
    intro t u ht hu
    by_contra hne
    rcases Nat.lt_or_ge t u with hlt | hge
    · exact haux t u ht hu hlt
    · exact haux u t hu ht (lt_of_le_of_ne hge fun h => hne h.symm)
  · -- persistence
    rintro t u hu ⟨b, hb, hph⟩ b' hb'
    exact bossTrace_phase2_persist envs w0 t b hb hph u hu b' hb'
  · -- the first qualifying tick fires
    rintro t ⟨b, hb, hph, h3⟩ hmin
    by_cases hpos : 0 < b.hp
    · exact ((bossTrace_trans_iff envs w0 t b hb).2 ⟨hph, hpos, h3⟩).2
    · exfalso
      cases t with
      | zero =>
        rw [show bossTrace envs w0 0 = w0 from rfl, hb0] at hb
        rw [← Option.some.inj hb] at hpos
        omega
      | succ s =>
        obtain ⟨bs, hbs⟩ := bossTrace_alive_back envs w0 s b hb
        obtain ⟨hspos, hstep⟩ := bossTrace_hp_step envs w0 s bs b hbs hb
        rcases bossTrace_phase12 envs w0 b0 hb0 hph0 s bs hbs with h1 | h2
        · refine hmin s (Nat.lt_succ_self s) ⟨bs, hbs, h1, ?_⟩
          rcases hstep with he | he <;> omega
        · have hcon := bossTrace_phase2_persist envs w0 s bs hbs h2 (s + 1)
            (Nat.le_succ s) b hb
          rw [hph] at hcon
          norm_num at hcon

theorem C2_phase_transition_witness :
    ∃ b', (bossTrace (fun _ => envW)
        ⟨some (bossW 3 1 0 BossState.attack), [], []⟩ 1).boss = some b' ∧
      b'.phase = 2 :=
  (((C2_phase_transition (fun _ => envW)
        ⟨some (bossW 3 1 0 BossState.attack), [], []⟩
        (bossW 3 1 0 BossState.attack) rfl rfl (by norm_num [bossW])).1 0).2
    ⟨bossW 3 1 0 BossState.attack, rfl, rfl, by norm_num [bossW],
      by norm_num [bossW]⟩).2

end Bridge

end
